import Mathlib

/-!
Verification development for the tablet feedback-capture application
(`src/App.js`).  The JavaScript source is shallowly embedded: pure
functions become Lean functions, browser state (localStorage, the
WebSocket handle, React component state) is passed explicitly, and
`Math.random()` is modelled by a rational draw `q` with `0 ≤ q < 1`
(the source uses `Math.floor(Math.random() * pool.length)` to index
into the candidate pool).  DOM timestamps and touch coordinates are
modelled as rationals.
-/

/-- The fixed six-element theme list, `const COLORS = [...]` in the source. -/
def COLORS : List String := ["blue", "red", "green", "yellow", "purple", "orange"]

/-- The four UI stages: `// form, folding, floating, sent` in the source. -/
inductive Stage
  | form
  | folding
  | floating
  | sent
deriving DecidableEq, Repr

/-- The three form fields held in the `formData` React state. -/
structure FormData where
  name : String
  email : String
  message : String
deriving DecidableEq, Repr

/-- The component state the claims are about: `formData`, `stage`,
`currentImage`, `currentColor`, `touchStart`, `imagesPreloaded`. -/
structure AppState where
  formData : FormData
  stage : Stage
  currentImage : Nat
  currentColor : String
  touchStart : Option ℚ
  imagesPreloaded : Bool
deriving DecidableEq, Repr

/-! ## Configuration resolver (`getWebSocketUrl`) -/

/-- The ambient `window.location` fields the resolver reads.  `port` is the
empty string when the URL carries no explicit port, matching the browser. -/
structure Location where
  hostname : String
  protocol : String
  port : String
deriving DecidableEq, Repr

/-- JavaScript truthiness of `process.env.REACT_APP_WS_URL`: an unset
variable is `undefined` (falsy) and the empty string is falsy too. -/
def envTruthy : Option String → Bool
  | none => false
  | some s => s != ""

/-- Embedding of `getWebSocketUrl`: priority 1 the environment variable when
truthy, priority 2 `ws://localhost:3001` for local hostnames, priority 3 the
protocol-matched same-host URL with the port appended only when present. -/
def getWebSocketUrl (envWsUrl : Option String) (loc : Location) : String :=
  if envTruthy envWsUrl then envWsUrl.getD ""
  else if loc.hostname = "localhost" ∨ loc.hostname = "127.0.0.1" then
    "ws://localhost:3001"
  else
    let protocol := if loc.protocol = "https:" then "wss:" else "ws:"
    let host := loc.hostname ++ (if loc.port != "" then ":" ++ loc.port else "")
    protocol ++ "//" ++ host

/-! ## Color rotation (`getNextColor`)

The source reads `localStorage.getItem('lastFeedbackColor')` (modelled as an
explicit `storedLastColor : Option String`, `none` for an absent entry) and
draws `Math.floor(Math.random() * colorPool.length)` (modelled as `randIndex`
applied to a draw `q` with `0 ≤ q < 1`).  The declared parameter
`currentColor` is kept exactly as in the source, which never reads it. -/

/-- `COLORS.filter(color => color !== lastColor)` from the source. -/
def availableColors (lastColor : Option String) : List String :=
  COLORS.filter (fun color => some color != lastColor)

/-- `availableColors.length > 0 ? availableColors : COLORS` from the source. -/
def colorPool (lastColor : Option String) : List String :=
  if 0 < (availableColors lastColor).length then availableColors lastColor else COLORS

/-- `Math.floor(Math.random() * colorPool.length)` with the random draw `q`
made explicit. -/
def randIndex (lastColor : Option String) (q : ℚ) : Nat :=
  (⌊q * ((colorPool lastColor).length : ℚ)⌋).toNat

/-- Embedding of `getNextColor(currentColor)`.  Returns the chosen color
together with the new persisted value written back by
`localStorage.setItem('lastFeedbackColor', nextColor)`.  Note that, as in the
source, the `currentColor` parameter is never consulted: the exclusion is
computed from `storedLastColor` alone. -/
def getNextColor (currentColor : Option String) (storedLastColor : Option String)
    (q : ℚ) : String × Option String :=
  let _ := currentColor
  let nextColor := (colorPool storedLastColor).getD (randIndex storedLastColor q) ""
  (nextColor, some nextColor)

/-- A run of consecutive rotations, each call reading the persisted value
written by the previous one, starting from `stored` and consuming one random
draw per call.  (The in-app calls pass `currentColor`, which `getNextColor`
ignores, so the argument is irrelevant to the run; `none` is passed here.) -/
def runRotations (stored : Option String) : List ℚ → List String
  | [] => []
  | q :: qs =>
    let r := getNextColor none stored q
    r.1 :: runRotations r.2 qs

/-! ## Animation engine (`animate`) -/

/-- `const ANIMATION_DURATION = 5000;` -/
def ANIMATION_DURATION : ℚ := 5000

/-- `const TOTAL_FRAMES = 99;` -/
def TOTAL_FRAMES : ℚ := 99

/-- The frame computed by one `animate` callback from the elapsed time:
`progress = Math.min(elapsed / ANIMATION_DURATION, 1)` and
`frameNumber = Math.floor(progress * TOTAL_FRAMES) + 1`. -/
def frameNumber (elapsed : ℚ) : ℤ :=
  ⌊min (elapsed / ANIMATION_DURATION) 1 * TOTAL_FRAMES⌋ + 1

/-! ## Controller handlers -/

/-- Embedding of `handleSubmit`: accept only when all three fields are
non-empty (JavaScript string truthiness) and `imagesPreloaded` is set; on
acceptance transition to `folding` and set the displayed frame to 1;
otherwise leave the state untouched. -/
def handleSubmit (s : AppState) : AppState :=
  if s.formData.name ≠ "" ∧ s.formData.email ≠ "" ∧ s.formData.message ≠ "" then
    if s.imagesPreloaded = false then s
    else { s with stage := Stage.folding, currentImage := 1 }
  else s

/-- The feedback record of the wire message, `feedback: { name, email,
message, color }` in the source. -/
structure Feedback where
  name : String
  email : String
  message : String
  color : String
deriving DecidableEq, Repr

/-- The wire message `{ type: 'new_feedback', feedback: {...} }` built by
`handleSwipeUp`. -/
structure FeedbackMessage where
  type : String
  feedback : Feedback
deriving DecidableEq, Repr

/-- The object `handleSwipeUp` serializes and sends: type `new_feedback`
with the current form fields and the current color. -/
def buildFeedbackMessage (fd : FormData) (color : String) : FeedbackMessage :=
  { type := "new_feedback"
    feedback := { name := fd.name, email := fd.email, message := fd.message, color := color } }

/-- Embedding of `handleSwipeUp` up to its immediate effects: the message is
sent only when `wsRef.current.readyState === WebSocket.OPEN` (modelled by
`wsOpen`), and the stage is set to `sent` unconditionally.  Returns the new
state together with the list of messages actually sent.  (The deferred
2000 ms reset is `resetAfterSent` below.) -/
def handleSwipeUp (s : AppState) (wsOpen : Bool) : AppState × List FeedbackMessage :=
  let sentMsgs := if wsOpen then [buildFeedbackMessage s.formData s.currentColor] else []
  ({ s with stage := Stage.sent }, sentMsgs)

/-- Embedding of the `setTimeout(..., 2000)` body of `handleSwipeUp`: clear
the form, return to `form`, reset the frame, rotate the color by calling
`getNextColor(currentColor)`, and clear the touch reference. -/
def resetAfterSent (s : AppState) (storedLastColor : Option String) (q : ℚ) : AppState :=
  { formData := { name := "", email := "", message := "" }
    stage := Stage.form
    currentImage := 0
    currentColor := (getNextColor (some s.currentColor) storedLastColor q).1
    touchStart := none
    imagesPreloaded := s.imagesPreloaded }

/-- Embedding of `handleTouchStart`: record the vertical coordinate only in
the `floating` stage. -/
def handleTouchStart (s : AppState) (clientY : ℚ) : AppState :=
  if s.stage = Stage.floating then { s with touchStart := some clientY } else s

/-- Embedding of `handleTouchMove`: in the `floating` stage with a recorded
reference, commit via `handleSwipeUp` exactly when `touchStart - touchEnd`
strictly exceeds 100; in every other situation do nothing. -/
def handleTouchMove (s : AppState) (wsOpen : Bool) (clientY : ℚ) :
    AppState × List FeedbackMessage :=
  if s.stage = Stage.floating then
    match s.touchStart with
    | some tStart => if tStart - clientY > 100 then handleSwipeUp s wsOpen else (s, [])
    | none => (s, [])
  else (s, [])

/-! ## Image preloader (`preloadImages`)

Each of the 100 frame loads ends in one of three outcomes; the source wires
every one of them to `resolve`: `img.onload` runs `img.decode().then(resolve)
.catch(resolve)` and `img.onerror = resolve`.  `Promise.all` completes when
every per-frame promise has resolved, after which a fixed `setTimeout(...,
100)` raises `setImagesPreloaded(true)`. -/

/-- The possible outcomes of one frame load. -/
inductive FrameOutcome
  | success
  | loadFailure
  | decodeFailure
deriving DecidableEq, Repr

/-- Whether the per-frame promise reaches `resolve` for a given outcome, read
off the handler wiring in the source. -/
def frameResolves : FrameOutcome → Bool
  | FrameOutcome.success => true
  | FrameOutcome.loadFailure => true
  | FrameOutcome.decodeFailure => true

/-- `Promise.all(imagePromises)` completes exactly when every frame promise
has resolved. -/
def preloadAllSettled (outcomes : Fin 100 → FrameOutcome) : Bool :=
  decide (∀ i : Fin 100, frameResolves (outcomes i) = true)

/-- `setTimeout(..., 100)`: the fixed grace delay in milliseconds. -/
def GRACE_DELAY_MS : Nat := 100

/-- Whether `setImagesPreloaded(true)` has fired, as a function of the frame
outcomes and the milliseconds elapsed since `Promise.all` completed: the
signal is raised only once all promises settled and the grace delay passed. -/
def imagesPreloadedSignal (outcomes : Fin 100 → FrameOutcome) (msAfterSettle : Nat) : Bool :=
  preloadAllSettled outcomes && decide (GRACE_DELAY_MS ≤ msAfterSettle)

/-! ## Helper lemmas -/

/-- Every branch of the per-frame handler wiring calls `resolve`. -/
theorem frameResolves_eq_true (o : FrameOutcome) : frameResolves o = true := by
  cases o <;> rfl

/-- The filtered candidate pool is never empty: at most one of the six themes
can equal the stored value, so at least five survive the filter. -/
theorem availableColors_length_pos (last : Option String) :
    0 < (availableColors last).length := by
  by_cases h : last = some "blue"
  · subst h
    decide
  · have hmem : "blue" ∈ availableColors last := by
      refine List.mem_filter.mpr ⟨by decide, ?_⟩
      simpa [bne_iff_ne] using fun heq => h heq.symm
    exact List.length_pos.mpr (List.ne_nil_of_mem hmem)

/-- The defensive full-set fallback in `colorPool` is unreachable. -/
theorem colorPool_eq (last : Option String) :
    colorPool last = availableColors last := by
  unfold colorPool
  rw [if_pos (availableColors_length_pos last)]

/-- The random index is always in bounds for a draw in `[0, 1)`. -/
theorem randIndex_lt (last : Option String) (q : ℚ) (h0 : 0 ≤ q) (h1 : q < 1) :
    randIndex last q < (colorPool last).length := by
  have hlen : 0 < (colorPool last).length := by
    rw [colorPool_eq]
    exact availableColors_length_pos last
  have hlenQ : (0 : ℚ) < ((colorPool last).length : ℚ) := by exact_mod_cast hlen
  have hmul : q * ((colorPool last).length : ℚ) < ((colorPool last).length : ℚ) := by
    calc q * ((colorPool last).length : ℚ) < 1 * ((colorPool last).length : ℚ) :=
          mul_lt_mul_of_pos_right h1 hlenQ
      _ = ((colorPool last).length : ℚ) := one_mul _
  have hfloor : ⌊q * ((colorPool last).length : ℚ)⌋ < ((colorPool last).length : ℤ) := by
    refine Int.floor_lt.mpr ?_
    exact_mod_cast hmul
  unfold randIndex
  omega

/-- The chosen color is an element of the candidate pool. -/
theorem getNextColor_fst_mem_pool (cur last : Option String) (q : ℚ)
    (h0 : 0 ≤ q) (h1 : q < 1) : (getNextColor cur last q).1 ∈ colorPool last := by
  have hlt := randIndex_lt last q h0 h1
  show (colorPool last).getD (randIndex last q) "" ∈ colorPool last
  rw [List.getD_eq_getElem _ _ hlt]
  exact List.getElem_mem _

/-- The chosen color never equals the stored previous color. -/
theorem getNextColor_fst_ne (cur : Option String) (p : String) (q : ℚ)
    (h0 : 0 ≤ q) (h1 : q < 1) : (getNextColor cur (some p) q).1 ≠ p := by
  have hmem := getNextColor_fst_mem_pool cur (some p) q h0 h1
  rw [colorPool_eq] at hmem
  have hp := (List.mem_filter.mp hmem).2
  simpa [bne_iff_ne] using hp

/-- The chosen color is always one of the six themes. -/
theorem getNextColor_fst_mem_COLORS (cur last : Option String) (q : ℚ)
    (h0 : 0 ≤ q) (h1 : q < 1) : (getNextColor cur last q).1 ∈ COLORS := by
  have hmem := getNextColor_fst_mem_pool cur last q h0 h1
  rw [colorPool_eq] at hmem
  exact List.mem_of_mem_filter hmem

/-- Along any run of rotations that threads the persisted value, adjacent
chosen colors differ. -/
theorem runRotations_chain (qs : List ℚ) : ∀ stored : Option String,
    (∀ q ∈ qs, 0 ≤ q ∧ q < 1) →
    List.Chain' (fun a b => a ≠ b) (runRotations stored qs) := by
  induction qs with
  | nil =>
    intro stored _
    simp [runRotations]
  | cons q qs ih =>
    intro stored hq
    show List.Chain' (fun a b => a ≠ b)
      ((getNextColor none stored q).1 ::
        runRotations (getNextColor none stored q).2 qs)
    rw [List.chain'_cons']
    refine ⟨?_, ih _ (fun x hx => hq x (List.mem_cons_of_mem _ hx))⟩
    intro y hy
    cases qs with
    | nil => simp [runRotations] at hy
    | cons q2 qs2 =>
      have hy' : (getNextColor none (getNextColor none stored q).2 q2).1 = y := by
        simpa [runRotations] using hy
      subst hy'
      have hb := hq q2 (List.mem_cons_of_mem _ (List.mem_cons_self _ _))
      exact (getNextColor_fst_ne none _ q2 hb.1 hb.2).symm

/-! ## Claim theorems -/

/-- C1: Submission gating — from the `form` stage, `handleSubmit` moves the
stage to `folding` and sets the displayed frame to 1 exactly when all three
form fields are non-empty and the preloader has signaled ready; in every
other case the state is left completely unchanged (so the stage stays
`form`). -/
theorem handleSubmit_gating :
    ∀ s : AppState, s.stage = Stage.form →
      (((handleSubmit s).stage = Stage.folding ∧ (handleSubmit s).currentImage = 1) ↔
        (s.formData.name ≠ "" ∧ s.formData.email ≠ "" ∧ s.formData.message ≠ "" ∧
          s.imagesPreloaded = true)) ∧
      (¬(s.formData.name ≠ "" ∧ s.formData.email ≠ "" ∧ s.formData.message ≠ "" ∧
          s.imagesPreloaded = true) → handleSubmit s = s) := by
  intro s hs
  by_cases hf : s.formData.name ≠ "" ∧ s.formData.email ≠ "" ∧ s.formData.message ≠ ""
  · by_cases hp : s.imagesPreloaded = true
    · have hsub : handleSubmit s = { s with stage := Stage.folding, currentImage := 1 } := by
        simp [handleSubmit, hf, hp]
      constructor
      · rw [hsub]
        simp [hf.1, hf.2.1, hf.2.2, hp]
      · intro hcon
        exact absurd ⟨hf.1, hf.2.1, hf.2.2, hp⟩ hcon
    · have hp' : s.imagesPreloaded = false := by
        simpa using hp
      have hsub : handleSubmit s = s := by
        simp [handleSubmit, hf, hp']
      rw [hsub, hs]
      simp [hp']
  · have hsub : handleSubmit s = s := by
      simp [handleSubmit]
      intro h1 h2 h3
      exact absurd ⟨h1, h2, h3⟩ hf
    rw [hsub, hs]
    constructor
    · constructor
      · rintro ⟨h, -⟩
        cases h
      · rintro ⟨h1, h2, h3, -⟩
        exact absurd ⟨h1, h2, h3⟩ hf
    · intro _
      rfl

/-- C1 witness: a fully filled form with preloaded images is accepted. -/
theorem handleSubmit_gating_witness :
    (handleSubmit ⟨⟨"Ada", "ada@example.com", "Great demo"⟩, Stage.form, 0, "green",
        none, true⟩).stage = Stage.folding ∧
    (handleSubmit ⟨⟨"Ada", "ada@example.com", "Great demo"⟩, Stage.form, 0, "green",
        none, true⟩).currentImage = 1 :=
  (handleSubmit_gating _ rfl).1.mpr (by refine ⟨?_, ?_, ?_, rfl⟩ <;> decide)

/-- C2: No-repeat color rotation — along any run of consecutive calls, each
reading the persisted value written by the previous one, adjacent chosen
colors are never equal, and after every call the persisted value equals the
color just returned. -/
theorem getNextColor_noConsecutiveRepeat :
    (∀ (stored : Option String) (qs : List ℚ), (∀ q ∈ qs, 0 ≤ q ∧ q < 1) →
      List.Chain' (fun a b => a ≠ b) (runRotations stored qs)) ∧
    (∀ (cur stored : Option String) (q : ℚ),
      (getNextColor cur stored q).2 = some (getNextColor cur stored q).1) :=
  ⟨fun stored qs h => runRotations_chain qs stored h, fun _ _ _ => rfl⟩

/-- C2 witness: a concrete two-step run from an empty store. -/
theorem getNextColor_noConsecutiveRepeat_witness :
    List.Chain' (fun a b => a ≠ b) (runRotations none [0, (1 : ℚ) / 2]) ∧
    (getNextColor none none 0).2 = some (getNextColor none none 0).1 :=
  ⟨getNextColor_noConsecutiveRepeat.1 none [0, (1 : ℚ) / 2] (by norm_num),
    getNextColor_noConsecutiveRepeat.2 none none 0⟩

/-- C3: the source's `getNextColor` never reads its `currentColor` parameter;
with explicit previous `red` but stale stored `blue` and draw 0 it returns
`red`, and the `resetAfterSent` call site therefore repeats the displayed
theme `red`. -/
theorem getNextColor_ignoresExplicitPrevious :
    (getNextColor (some "red") (some "blue") 0).1 = "red" ∧
    (resetAfterSent ⟨⟨"Ada", "ada@example.com", "Great demo"⟩, Stage.sent, 100, "red",
        none, true⟩ (some "blue") 0).currentColor = "red" := by
  constructor
  · norm_num [getNextColor, randIndex, colorPool, availableColors, COLORS]
    decide
  · norm_num [resetAfterSent, getNextColor, randIndex, colorPool, availableColors, COLORS]
    decide

/-- C4: Animation frame function — the frame computed from an elapsed time t
is floor(min(t/5000, 1) * 99) + 1; elapsed 0 gives frame 1, elapsed at least
5000 gives frame 100, and the frame number never decreases as the elapsed
time grows. -/
theorem frameNumber_spec :
    (∀ t : ℚ, frameNumber t = ⌊min (t / 5000) 1 * 99⌋ + 1) ∧
    frameNumber 0 = 1 ∧
    (∀ t : ℚ, 5000 ≤ t → frameNumber t = 100) ∧
    (∀ t1 t2 : ℚ, t1 < t2 → frameNumber t1 ≤ frameNumber t2) := by
  refine ⟨fun t => rfl, by norm_num [frameNumber, ANIMATION_DURATION, TOTAL_FRAMES], ?_, ?_⟩
  · intro t ht
    have h1 : (1 : ℚ) ≤ t / 5000 := by
      rw [le_div_iff (by norm_num : (0 : ℚ) < 5000)]
      linarith
    unfold frameNumber ANIMATION_DURATION TOTAL_FRAMES
    rw [min_eq_right h1]
    norm_num
  · intro t1 t2 hlt
    unfold frameNumber
    have hdiv : t1 / ANIMATION_DURATION ≤ t2 / ANIMATION_DURATION := by
      apply div_le_div_of_nonneg_right hlt.le
      norm_num [ANIMATION_DURATION]
    have hmin : min (t1 / ANIMATION_DURATION) 1 ≤ min (t2 / ANIMATION_DURATION) 1 :=
      min_le_min hdiv le_rfl
    have hmul : min (t1 / ANIMATION_DURATION) 1 * TOTAL_FRAMES ≤
        min (t2 / ANIMATION_DURATION) 1 * TOTAL_FRAMES :=
      mul_le_mul_of_nonneg_right hmin (by norm_num [TOTAL_FRAMES])
    exact add_le_add_right (Int.floor_le_floor hmul) 1

/-- C4 witness: the boundary values and a monotone pair. -/
theorem frameNumber_spec_witness :
    frameNumber 5000 = 100 ∧ frameNumber 0 ≤ frameNumber 2500 :=
  ⟨frameNumber_spec.2.2.1 5000 (by norm_num),
    frameNumber_spec.2.2.2 0 2500 (by norm_num)⟩

/-- C5: Feedback payload construction — with the connection open,
`handleSwipeUp` sends exactly one message, of type `new_feedback`, carrying
the current form fields and current color; in particular the Ada example
produces exactly the expected message. -/
theorem handleSwipeUp_payload :
    (∀ s : AppState, (handleSwipeUp s true).2 =
      [{ type := "new_feedback"
         feedback := { name := s.formData.name, email := s.formData.email,
                       message := s.formData.message, color := s.currentColor } }]) ∧
    (handleSwipeUp ⟨⟨"Ada", "ada@example.com", "Great demo"⟩, Stage.floating, 100, "green",
        none, true⟩ true).2 =
      [⟨"new_feedback", ⟨"Ada", "ada@example.com", "Great demo", "green"⟩⟩] :=
  ⟨fun _ => rfl, rfl⟩

/-- C7: Dropped-send tolerance — with the connection not open,
`handleSwipeUp` sends nothing, yet produces exactly the same state as with
the connection open, and in particular still advances the stage to `sent`. -/
theorem handleSwipeUp_droppedSend :
    ∀ s : AppState,
      (handleSwipeUp s false).2 = [] ∧
      (handleSwipeUp s false).1 = (handleSwipeUp s true).1 ∧
      (handleSwipeUp s false).1.stage = Stage.sent :=
  fun _ => ⟨rfl, rfl, rfl⟩

/-- C8: Swipe threshold boundary — in the `floating` stage with a recorded
reference, a vertical delta of exactly 100 does not commit (the state is
untouched and nothing is sent), a delta of 101 commits exactly as
`handleSwipeUp` does (so the stage becomes `sent`), and in any other stage
both touch handlers do nothing at all. -/
theorem handleTouchMove_threshold :
    (∀ (s : AppState) (wsOpen : Bool) (tStart y : ℚ),
      s.stage = Stage.floating → s.touchStart = some tStart → tStart - y = 100 →
      handleTouchMove s wsOpen y = (s, [])) ∧
    (∀ (s : AppState) (wsOpen : Bool) (tStart y : ℚ),
      s.stage = Stage.floating → s.touchStart = some tStart → tStart - y = 101 →
      handleTouchMove s wsOpen y = handleSwipeUp s wsOpen ∧
        (handleTouchMove s wsOpen y).1.stage = Stage.sent) ∧
    (∀ (s : AppState) (y : ℚ), s.stage ≠ Stage.floating → handleTouchStart s y = s) ∧
    (∀ (s : AppState) (wsOpen : Bool) (y : ℚ), s.stage ≠ Stage.floating →
      handleTouchMove s wsOpen y = (s, [])) := by
  refine ⟨?_, ?_, ?_, ?_⟩
  · intro s wsOpen tStart y hs ht hd
    simp [handleTouchMove, hs, ht, hd]
  · intro s wsOpen tStart y hs ht hd
    have hgt : tStart - y > 100 := by rw [hd]; norm_num
    have heq : handleTouchMove s wsOpen y = handleSwipeUp s wsOpen := by
      simp [handleTouchMove, hs, ht, hgt]
    exact ⟨heq, by rw [heq]; rfl⟩
  · intro s y hs
    simp [handleTouchStart, hs]
  · intro s wsOpen y hs
    simp [handleTouchMove, hs]

/-- C8 witness: concrete boundary cases at reference 300 and a `form`-stage
state ignoring touches. -/
theorem handleTouchMove_threshold_witness :
    handleTouchMove ⟨⟨"Ada", "ada@example.com", "Great demo"⟩, Stage.floating, 100, "green",
        some 300, true⟩ true 200 =
      (⟨⟨"Ada", "ada@example.com", "Great demo"⟩, Stage.floating, 100, "green",
        some 300, true⟩, []) ∧
    (handleTouchMove ⟨⟨"Ada", "ada@example.com", "Great demo"⟩, Stage.floating, 100, "green",
        some 300, true⟩ true 199).1.stage = Stage.sent ∧
    handleTouchStart ⟨⟨"", "", ""⟩, Stage.form, 0, "blue", none, false⟩ 50 =
      ⟨⟨"", "", ""⟩, Stage.form, 0, "blue", none, false⟩ :=
  ⟨handleTouchMove_threshold.1 _ true 300 200 rfl rfl (by norm_num),
    (handleTouchMove_threshold.2.1 _ true 300 199 rfl rfl (by norm_num)).2,
    handleTouchMove_threshold.2.2.1 _ 50 (by decide)⟩

/-- C9: Preload fault tolerance and settlement ordering — every possible
outcome of a frame load (success, load failure, decode failure) resolves its
promise, so for every outcome assignment all 100 promises settle and
`Promise.all` completes; the ready signal is raised exactly when all 100
outcomes have settled and the fixed 100 ms grace delay has elapsed. -/
theorem preloadImages_faultTolerance :
    (∀ o : FrameOutcome, frameResolves o = true) ∧
    (∀ outcomes : Fin 100 → FrameOutcome, preloadAllSettled outcomes = true) ∧
    (∀ (outcomes : Fin 100 → FrameOutcome) (ms : Nat),
      imagesPreloadedSignal outcomes ms = true ↔
        ((∀ i : Fin 100, frameResolves (outcomes i) = true) ∧ GRACE_DELAY_MS ≤ ms)) := by
  refine ⟨frameResolves_eq_true, ?_, ?_⟩
  · intro outcomes
    simp [preloadAllSettled, frameResolves_eq_true]
  · intro outcomes ms
    simp [imagesPreloadedSignal, preloadAllSettled, frameResolves_eq_true]

/-- C10: Totality and range of the color rotation — for every stored value
(absent, a theme, or any other string) and every draw in [0, 1), the chosen
color is one of the six themes, the filtered pool is non-empty (the full-set
fallback is unreachable), and the random index is within the pool bounds. -/
theorem getNextColor_total_inRange :
    ∀ (cur stored : Option String) (q : ℚ), 0 ≤ q → q < 1 →
      (getNextColor cur stored q).1 ∈ COLORS ∧
      0 < (availableColors stored).length ∧
      colorPool stored = availableColors stored ∧
      randIndex stored q < (colorPool stored).length :=
  fun cur stored q h0 h1 =>
    ⟨getNextColor_fst_mem_COLORS cur stored q h0 h1,
      availableColors_length_pos stored,
      colorPool_eq stored,
      randIndex_lt stored q h0 h1⟩

/-- C10 witness: a stored value outside the theme set, draw one half. -/
theorem getNextColor_total_inRange_witness :
    (getNextColor none (some "teal") ((1 : ℚ) / 2)).1 ∈ COLORS ∧
    0 < (availableColors (some "teal")).length ∧
    colorPool (some "teal") = availableColors (some "teal") ∧
    randIndex (some "teal") ((1 : ℚ) / 2) < (colorPool (some "teal")).length :=
  getNextColor_total_inRange none (some "teal") ((1 : ℚ) / 2) (by norm_num) (by norm_num)

/-- C6 counterexample: with the configuration value present but equal to the
empty string, the resolver does not return it verbatim — it falls through to
the localhost default. -/
theorem getWebSocketUrl_emptyEnv :
    getWebSocketUrl (some "") ⟨"localhost", "http:", ""⟩ = "ws://localhost:3001" ∧
    ("ws://localhost:3001" : String) ≠ "" := by
  constructor
  · rfl
  · decide

/-- C6 (amended): Endpoint resolution precedence — a non-empty supplied
configuration value is returned verbatim regardless of host; otherwise local
hostnames resolve to `ws://localhost:3001`; otherwise the URL is the
transport-matched scheme plus the hostname with the port appended only when
present; in particular `app.example.com` over secure transport with no port
resolves to `wss://app.example.com`. -/
theorem getWebSocketUrl_spec :
    (∀ (u : String) (loc : Location), u ≠ "" → getWebSocketUrl (some u) loc = u) ∧
    (∀ (envWsUrl : Option String) (loc : Location), envTruthy envWsUrl = false →
      (loc.hostname = "localhost" ∨ loc.hostname = "127.0.0.1") →
      getWebSocketUrl envWsUrl loc = "ws://localhost:3001") ∧
    (∀ (envWsUrl : Option String) (loc : Location), envTruthy envWsUrl = false →
      loc.hostname ≠ "localhost" → loc.hostname ≠ "127.0.0.1" →
      getWebSocketUrl envWsUrl loc =
        (if loc.protocol = "https:" then "wss:" else "ws:") ++ "//" ++ loc.hostname ++
          (if loc.port != "" then ":" ++ loc.port else "")) ∧
    getWebSocketUrl none ⟨"app.example.com", "https:", ""⟩ = "wss://app.example.com" := by
  refine ⟨?_, ?_, ?_, by decide⟩
  · intro u loc hu
    simp [getWebSocketUrl, envTruthy, hu]
  · intro envWsUrl loc henv hloc
    simp [getWebSocketUrl, henv, hloc]
  · intro envWsUrl loc henv h1 h2
    simp [getWebSocketUrl, henv, h1, h2, String.append_assoc]

/-- C6 witness: a non-empty supplied value wins over a local host, a bare
localhost resolves to the development default, and a plain-transport host
with a port resolves to the derived URL. -/
theorem getWebSocketUrl_spec_witness :
    getWebSocketUrl (some "wss://collector.example/ws") ⟨"localhost", "http:", ""⟩ =
      "wss://collector.example/ws" ∧
    getWebSocketUrl none ⟨"localhost", "http:", ""⟩ = "ws://localhost:3001" ∧
    getWebSocketUrl none ⟨"app.example.com", "http:", "8080"⟩ =
      (if ("http:" : String) = "https:" then "wss:" else "ws:") ++ "//" ++ "app.example.com" ++
        (if ("8080" : String) != "" then ":" ++ "8080" else "") :=
  ⟨getWebSocketUrl_spec.1 _ _ (by decide),
    getWebSocketUrl_spec.2.1 none _ rfl (Or.inl rfl),
    getWebSocketUrl_spec.2.2.1 none _ rfl (by decide) (by decide)⟩
